import Mathlib

/-
Verification of the class-synthesis core of the sqlmodel repository
(sqlmodel/main.py, sqlmodel/compat.py, sqlmodel/_compat.py) against its
natural-language specification.

The Python source is shallowly embedded: the relevant runtime objects
(type annotations, field descriptors, class dictionaries, classes) become
inductive data, and each cited Python function becomes a computable Lean
function mirroring the control flow of the source.  The pydantic-v2 branches of
the version-split helpers are embedded, matching the line ranges cited by
the claims; SQLModel.__init__ is embedded in both of its version
branches, because the two branches differ in when validation errors are
raised.  External collaborators (the validation library, the mapping
library) are modelled only through the contracts the specification states
for them; such definitions carry a doc comment saying so.
-/

set_option maxHeartbeats 1000000

namespace SqlModel

/-- Python classes relevant to the type-mapping resolver.  An enumeration
class carries a flag recording whether it also subclasses str (code comment
in get_sqlalchemy_type: an enum can also be a str).  listCls is the builtin
list class (returned by get_origin for List annotations); custom is any
other class, e.g. a user model or an unmappable type. -/
inductive PyBase where
  | enumCls (strSub : Bool)
  | strCls
  | floatCls
  | boolCls
  | intCls
  | datetimeCls
  | dateCls
  | timedeltaCls
  | timeCls
  | bytesCls
  | decimalCls
  | ip4aCls
  | ip4nCls
  | ip6aCls
  | ip6nCls
  | pathCls
  | uuidCls
  | listCls
  | noneType
  | custom (nm : String)
deriving DecidableEq

/-- The name a Python class reports, used when errors name an unmapped
type. -/
def pyBaseName : PyBase → String
  | .enumCls _ => "Enum"
  | .strCls => "str"
  | .floatCls => "float"
  | .boolCls => "bool"
  | .intCls => "int"
  | .datetimeCls => "datetime"
  | .dateCls => "date"
  | .timedeltaCls => "timedelta"
  | .timeCls => "time"
  | .bytesCls => "bytes"
  | .decimalCls => "Decimal"
  | .ip4aCls => "IPv4Address"
  | .ip4nCls => "IPv4Network"
  | .ip6aCls => "IPv6Address"
  | .ip6nCls => "IPv6Network"
  | .pathCls => "Path"
  | .uuidCls => "UUID"
  | .listCls => "list"
  | .noneType => "NoneType"
  | .custom nm => nm

/-- A Python type annotation as the typing module reports it: a plain
class (get_origin = None), a forward reference, a Union with its argument
list, or a List with its element. -/
inductive Ann where
  | base (b : PyBase)
  | fref (nm : String)
  | union (args : List Ann)
  | listOf (t : Ann)

/-- Whether an annotation argument is the class NoneType (the source
compares arguments with NoneType identity). -/
def isNoneAnn : Ann → Bool
  | .base .noneType => true
  | _ => false

/-- The class an annotation denotes when it is a plain class; generic
aliases and forward references are not classes (issubclass on them is a
host-language type error). -/
def classOf : Ann → Option PyBase
  | .base b => some b
  | _ => none

/-- A default value as stored on a pydantic field: the Undefined sentinel,
Ellipsis, None, or a concrete value. -/
inductive Dflt where
  | undef
  | ellipsis
  | noneV
  | intV (n : Int)
  | strV (s : String)
deriving DecidableEq

def isUndefD : Dflt → Bool
  | .undef => true
  | _ => false

def isEllipsisD : Dflt → Bool
  | .ellipsis => true
  | _ => false

/-- The constraint metadata get_field_metadata extracts from a field
(max_length, max_digits, decimal_places); FakeMetadata is the record with
every slot None. -/
structure MetaRec where
  max_length : Option Nat
  max_digits : Option Nat
  decimal_places : Option Nat
deriving DecidableEq

/-- A column default: a default factory takes precedence over a static
default in get_column_from_field. -/
inductive ColDefault where
  | factory (n : Nat)
  | value (d : Dflt)
deriving DecidableEq

/-- A value in the keyword dictionary passed to the Column constructor:
booleans for the shorthand-derived keys, a default, or an opaque extra
value from sa_column_kwargs. -/
inductive KwVal where
  | b (x : Bool)
  | d (x : ColDefault)
  | other (n : Nat)
deriving DecidableEq

/-- The SQLAlchemy storage types get_sqlalchemy_type can produce.
autoString carries the applied max length, numeric its precision and
scale; explicit is a user-supplied sa_type used verbatim. -/
inductive SAType where
  | saEnum (ty : PyBase)
  | autoString (l : Option Nat)
  | floatT
  | booleanT
  | integerT
  | dateTimeT
  | dateT
  | intervalT
  | timeT
  | largeBinary
  | numeric (precision : Option Nat) (scale : Option Nat)
  | guid
  | explicit (n : Nat)
deriving DecidableEq

/-- Errors the type-mapping resolver raises: the missing-annotation
ValueError, the non-optional-union ValueError, a host-language type error
from issubclass on a non-class, an unreachable malformed-union unpack, and
the no-matching-SQLAlchemy-type ValueError naming the type. -/
inductive MapErr where
  | missingType
  | nonOptionalUnion
  | nonClass
  | malformed
  | unmappable (nm : String)
deriving DecidableEq

/-- A positional argument of the Column constructor: a ForeignKey built
from the foreign_key string, or an opaque extra from sa_column_args. -/
inductive ColArg where
  | fkey (target : String)
  | extra (n : Nat)
deriving DecidableEq

/-- The derived storage column: its SQLAlchemy type, the positional args,
and the keyword dictionary handed to Column. -/
structure ColumnSpec where
  ty : SAType
  args : List ColArg
  kwargs : List (String × KwVal)
deriving DecidableEq

/-- Result of get_column_from_field: a manual sa_column returned verbatim,
or a column built from the shorthand hints. -/
inductive ColumnRes where
  | manual (c : Nat)
  | built (s : ColumnSpec)
deriving DecidableEq

/-- The field descriptor as it exists after FieldInfo construction, with
exactly the attributes get_column_from_field, get_sqlalchemy_type and
_is_field_noneable read.  Options model the Undefined sentinel (none) for
the shorthand hints; original_default is the sentinel set_empty_defaults
writes. -/
structure FieldInfo where
  ann : Option Ann
  default : Dflt
  default_factory : Option Nat
  meta : Option MetaRec
  primary_key : Option Bool
  nullable : Option Bool
  foreign_key : Option String
  unique : Option Bool
  index : Option Bool
  sa_type : Option Nat
  sa_column : Option Nat
  sa_column_args : Option (List Nat)
  sa_column_kwargs : Option (List (String × KwVal))
  original_default : Option Dflt

/-- A field descriptor with every attribute at its Field() default. -/
def emptyField : FieldInfo :=
  { ann := none
    default := .undef
    default_factory := none
    meta := none
    primary_key := none
    nullable := none
    foreign_key := none
    unique := none
    index := none
    sa_type := none
    sa_column := none
    sa_column_args := none
    sa_column_kwargs := none
    original_default := none }

/-- get_field_metadata (sqlmodel/_compat.py, pydantic-v2 branch): the
PydanticMetadata entry of the field if one exists, else FakeMetadata with
every constraint None. -/
def getFieldMetadata (f : FieldInfo) : MetaRec :=
  f.meta.getD { max_length := none, max_digits := none, decimal_places := none }

/-- get_type_from_field (sqlmodel/_compat.py lines 147-168, pydantic-v2
branch): resolve the annotation of the field to a plain class, unwrapping
Optional and rejecting non-optional unions; a List annotation resolves to
its origin, the builtin list class. -/
def get_type_from_field_core : Option Ann → Except MapErr PyBase
  | none => .error .missingType
  | some a =>
    match a with
    | .base b => .ok b
    | .fref _ => .error .nonClass
    | .listOf _ => .ok .listCls
    | .union args =>
      if 2 < args.length then .error .nonOptionalUnion
      else
        match args with
        | [a1, a2] =>
          if isNoneAnn a1 = false ∧ isNoneAnn a2 = false then .error .nonOptionalUnion
          else
            match classOf (if isNoneAnn a1 = false then a1 else a2) with
            | some b => .ok b
            | none => .error .nonClass
        | _ => .error .malformed

/-- Truthiness of the max_length constraint: the source guards the length
with a plain if, so None and 0 both leave the string type unsized. -/
def truthyLen : Option Nat → Option Nat
  | some l => if l = 0 then none else some l
  | none => none

/-- The issubclass-ordered dispatch of get_sqlalchemy_type
(sqlmodel/main.py lines 553-594), one branch per source if, in source
order: Enum before str (an enum may subclass str), bool before int (bool
subclasses int), datetime before date (datetime subclasses date). -/
def sa_dispatch (ty : PyBase) (md : MetaRec) : Except MapErr SAType :=
  match ty with
  | .enumCls s => .ok (.saEnum (.enumCls s))
  | .strCls => .ok (.autoString (truthyLen md.max_length))
  | .floatCls => .ok .floatT
  | .boolCls => .ok .booleanT
  | .intCls => .ok .integerT
  | .datetimeCls => .ok .dateTimeT
  | .dateCls => .ok .dateT
  | .timedeltaCls => .ok .intervalT
  | .timeCls => .ok .timeT
  | .bytesCls => .ok .largeBinary
  | .decimalCls => .ok (.numeric md.max_digits md.decimal_places)
  | .ip4aCls => .ok (.autoString none)
  | .ip4nCls => .ok (.autoString none)
  | .ip6aCls => .ok (.autoString none)
  | .ip6nCls => .ok (.autoString none)
  | .pathCls => .ok (.autoString none)
  | .uuidCls => .ok .guid
  | other => .error (.unmappable (pyBaseName other))

/-- The annotation-driven part of get_sqlalchemy_type: resolve the plain
class, then dispatch with the constraint metadata of the field. -/
def get_sqlalchemy_type_core (a : Option Ann) (md : MetaRec) : Except MapErr SAType :=
  (get_type_from_field_core a).bind (fun ty => sa_dispatch ty md)

/-- get_sqlalchemy_type (sqlmodel/main.py lines 541-594): an explicit
sa_type is used verbatim; otherwise the type is derived from the
annotation and the constraint metadata. -/
def get_sqlalchemy_type (f : FieldInfo) : Except MapErr SAType :=
  match f.sa_type with
  | some t => .ok (.explicit t)
  | none => get_sqlalchemy_type_core f.ann (getFieldMetadata f)

/-- Lookup in a Python-dict-like association list (first matching key). -/
def lookupAssoc {α : Type} : List (String × α) → String → Option α
  | [], _ => none
  | p :: rest, k => if p.1 = k then some p.2 else lookupAssoc rest k

/-- dict[key] = value on an association list: replace the first entry with
the key, or append the pair when the key is fresh. -/
def updAssoc {α : Type} : List (String × α) → String × α → List (String × α)
  | [], kv => [kv]
  | p :: rest, kv => if p.1 = kv.1 then (kv.1, kv.2) :: rest else p :: updAssoc rest kv

/-- dict.update(new) on an association list: later entries override
same-named earlier ones. -/
def updAssocs {α : Type} (d new : List (String × α)) : List (String × α) :=
  new.foldl updAssoc d

/-- Whether the annotation of the field is a Union one of whose arguments is
NoneType (the Optional check of _is_field_noneable). -/
def isOptionalUnionAnn : Option Ann → Bool
  | some (.union args) => args.any isNoneAnn
  | _ => false

/-- Whether the annotation of the field attribute is None or the NoneType
class (the annotation check in the default branch of
_is_field_noneable). -/
def noneishAnn : Option Ann → Bool
  | none => true
  | some (.base .noneType) => true
  | _ => false

/-- FieldInfo.is_required in pydantic v2: required iff there is neither a
static default nor a default factory. -/
def isRequiredF (f : FieldInfo) : Bool :=
  isUndefD f.default && f.default_factory.isNone

/-- _is_field_noneable (sqlmodel/_compat.py lines 131-145, pydantic-v2
branch): an explicit nullable attribute wins; else an Optional annotation
is noneable; else a field with a default is noneable exactly when its
annotation is None or NoneType; required fields are not noneable. -/
def _is_field_noneable (f : FieldInfo) : Bool :=
  match f.nullable with
  | some b => b
  | none =>
    if isOptionalUnionAnn f.ann then true
    else if !isRequiredF f then
      if isUndefD f.default then false
      else if noneishAnn f.ann then true
      else false
    else false

/-- The nullability get_column_from_field computes before the keyword
merge: the explicit nullable override when present, else not-primary-key
and noneable. -/
def nullableDerived (f : FieldInfo) : Bool :=
  f.nullable.getD (!(f.primary_key.getD false) && _is_field_noneable f)

/-- get_column_from_field (sqlmodel/main.py lines 597-648): a manual
sa_column is returned verbatim; otherwise the storage type is derived, the
shorthand hints become Column args and kwargs (primary_key, nullable,
index, unique, ForeignKey, default with factory precedence), and
sa_column_args / sa_column_kwargs merge last, overriding same-named
keys. -/
def get_column_from_field (f : FieldInfo) : Except MapErr ColumnRes :=
  match f.sa_column with
  | some c => .ok (.manual c)
  | none =>
    match get_sqlalchemy_type f with
    | .error e => .error e
    | .ok ty =>
      let pk := f.primary_key.getD false
      let idx := f.index.getD false
      let nb := f.nullable.getD (!pk && _is_field_noneable f)
      let fkArgs : List ColArg :=
        match f.foreign_key with
        | some s => if s.isEmpty then [] else [.fkey s]
        | none => []
      let uq := f.unique.getD false
      let args := fkArgs ++ (f.sa_column_args.getD []).map ColArg.extra
      let kw0 : List (String × KwVal) :=
        [("primary_key", .b pk), ("nullable", .b nb), ("index", .b idx), ("unique", .b uq)]
      let saDefault : Option ColDefault :=
        match f.default_factory with
        | some n => some (.factory n)
        | none =>
          match f.default with
          | .undef => none
          | d => some (.value d)
      let kw1 :=
        match saDefault with
        | some v => kw0 ++ [("default", KwVal.d v)]
        | none => kw0
      let kw2 := updAssocs kw1 (f.sa_column_kwargs.getD [])
      .ok (.built { ty := ty, args := args, kwargs := kw2 })

/-- The nullable entry of the keyword dictionary the Column constructor
receives. -/
def colNullable (s : ColumnSpec) : Option KwVal :=
  lookupAssoc s.kwargs ("nullable")

/-- The nullable entry of the column a field derives, when the field
derives a built column at all. -/
def colNullableOf (f : FieldInfo) : Option KwVal :=
  match get_column_from_field f with
  | .ok (.built s) => colNullable s
  | _ => none

/-- The arguments of the Field() builder that matter for descriptor
construction: every shorthand mapping hint plus the manual column
override, each defaulting to the Undefined sentinel (none). -/
structure FieldArgs where
  default : Dflt := .undef
  default_factory : Option Nat := none
  primary_key : Option Bool := none
  nullable : Option Bool := none
  foreign_key : Option String := none
  unique : Option Bool := none
  index : Option Bool := none
  sa_type : Option Nat := none
  sa_column : Option Nat := none
  sa_column_args : Option (List Nat) := none
  sa_column_kwargs : Option (List (String × KwVal)) := none
deriving DecidableEq

/-- The configuration error FieldInfo.__init__ raises (a RuntimeError in
the source; ConfigurationError in the taxonomy of the specification), naming
the shorthand hint that was combined with sa_column. -/
inductive ConfigErr where
  | withColumn (hint : String)
deriving DecidableEq

/-- Field() composed with FieldInfo.__init__ (sqlmodel/main.py lines
81-137 and 249-328): when a manual sa_column is supplied, each shorthand
hint that is not the Undefined sentinel raises, in source order
(sa_column_args, sa_column_kwargs, primary_key, nullable, foreign_key,
unique, index, sa_type); otherwise the descriptor is built. -/
def field_build (a : FieldArgs) : Except ConfigErr FieldInfo :=
  match a.sa_column with
  | some c =>
    if a.sa_column_args.isSome then .error (.withColumn ("sa_column_args"))
    else if a.sa_column_kwargs.isSome then .error (.withColumn ("sa_column_kwargs"))
    else if a.primary_key.isSome then .error (.withColumn ("primary_key"))
    else if a.nullable.isSome then .error (.withColumn ("nullable"))
    else if a.foreign_key.isSome then .error (.withColumn ("foreign_key"))
    else if a.unique.isSome then .error (.withColumn ("unique"))
    else if a.index.isSome then .error (.withColumn ("index"))
    else if a.sa_type.isSome then .error (.withColumn ("sa_type"))
    else
      .ok { emptyField with
              default := a.default, default_factory := a.default_factory,
              sa_column := some c }
  | none =>
    .ok { emptyField with
            default := a.default, default_factory := a.default_factory,
            primary_key := a.primary_key, nullable := a.nullable,
            foreign_key := a.foreign_key, unique := a.unique,
            index := a.index, sa_type := a.sa_type,
            sa_column_args := a.sa_column_args,
            sa_column_kwargs := a.sa_column_kwargs }

/-- The target a relationship resolves to: a class, or the bare name of a
forward reference (resolved later against the registry). -/
inductive RelTarget where
  | ann (a : Ann)
  | name (s : String)

/-- Errors of the _compat variant of get_relationship_to: the ValueError
for unions of more than two arguments, the ValueError raised when neither
of two union arguments is NoneType, and the unreachable unpack of a union
with fewer than two arguments. -/
inductive RelErr where
  | nonOptionalUnion
  | unionOfNones
  | malformed
deriving DecidableEq

/-- get_relationship_to (sqlmodel/_compat.py lines 93-129, pydantic-v2
branch): recursively unwrap Optional and one level of List; a forward
reference resolves to its name (the source recurses once with the bare
string, whose origin is None); unions of more than two arguments, and
two-argument unions where neither argument is NoneType, raise. -/
def get_relationship_to_us : Ann → Except RelErr RelTarget
  | .base b => .ok (.ann (.base b))
  | .fref s => .ok (.name s)
  | .listOf t => get_relationship_to_us t
  | .union args =>
    if 2 < args.length then .error .nonOptionalUnion
    else
      match args with
      | [a1, a2] =>
        if isNoneAnn a1 && !isNoneAnn a2 then get_relationship_to_us a2
        else if isNoneAnn a2 && !isNoneAnn a1 then get_relationship_to_us a1
        else .error .unionOfNones
      | _ => .error .malformed

/-- get_relationship_to (sqlmodel/compat.py lines 137-155, pydantic-v2
branch), the variant sqlmodel/main.py imports: a Union or List annotation
resolves to its first type argument with no optionality check and no
error path; a forward reference resolves to its name. -/
def get_relationship_to_compat (a : Ann) : RelTarget :=
  let r : Ann :=
    match a with
    | .union args => args.headD a
    | .listOf t => t
    | other => other
  match r with
  | .fref s => .name s
  | other => .ann other

/-- The relationship descriptor (RelationshipInfo) as relationship wiring
reads it: back-reference name, link model (some when given, carrying its
storage table when it has one), explicit override, extra args and
kwargs. -/
structure RelInfo where
  back_populates : Option String
  link_model : Option (Option Nat)
  sa_relationship : Option Nat
  sa_relationship_args : Option (List Nat)
  sa_relationship_kwargs : Option (List (String × Nat))

/-- A value in the keyword dictionary handed to the mapping layer
relationship constructor. -/
inductive RKw where
  | s (v : String)
  | tbl (v : Nat)
  | n (v : Nat)

/-- The RuntimeError raised when a link model has no storage table. -/
inductive WireErr where
  | missingSecondary
deriving DecidableEq

/-- What relationship wiring binds onto the class for one relationship:
the explicit override verbatim, or a constructed relationship from the
inferred target, args and kwargs. -/
inductive RelBinding where
  | direct (r : Nat)
  | inferred (target : RelTarget) (args : List Nat) (kwargs : List (String × RKw))

/-- One iteration of the wiring loop in SQLModelMetaclass.__init__
(sqlmodel/main.py lines 495-532): an explicit sa_relationship is bound
directly and the iteration ends; otherwise the target is resolved from the
annotation (via the compat variant of get_relationship_to, the one main.py
imports), back_populates and the secondary table of the link model populate the
kwargs, and explicit extra args/kwargs merge last. -/
def wire_relationship (ri : RelInfo) (a : Ann) : Except WireErr RelBinding :=
  match ri.sa_relationship with
  | some r => .ok (.direct r)
  | none =>
    let target := get_relationship_to_compat a
    let kw0 : List (String × RKw) :=
      match ri.back_populates with
      | some bp => [("back_populates", .s bp)]
      | none => []
    match ri.link_model with
    | some none => .error .missingSecondary
    | some (some t) =>
      let kw1 := kw0 ++ [("secondary", RKw.tbl t)]
      let args := ri.sa_relationship_args.getD []
      let kw2 := updAssocs kw1 ((ri.sa_relationship_kwargs.getD []).map (fun p => (p.1, RKw.n p.2)))
      .ok (.inferred target args kw2)
    | none =>
      let args := ri.sa_relationship_args.getD []
      let kw2 := updAssocs kw0 ((ri.sa_relationship_kwargs.getD []).map (fun p => (p.1, RKw.n p.2)))
      .ok (.inferred target args kw2)

/-- A finished model class as cls_is_table sees it: the table value its
merged config stores (none when no class in the chain set it), and its
direct base classes. -/
inductive PCls where
  | mk (tableStored : Option Bool) (bases : List PCls)

def PCls.tbl : PCls → Option Bool
  | .mk t _ => t

def PCls.bs : PCls → List PCls
  | .mk _ b => b

/-- cls_is_table (sqlmodel/_compat.py lines 87-91, pydantic-v2 branch):
model_config.get with default False. -/
def cls_is_table (c : PCls) : Bool :=
  c.tbl.getD false

/-- The table key of the merged parent configs: the validation library
merges base-class configs in order, so the first base carrying the key
wins.  Models the documented config
inheritance. -/
def inheritedTable : List PCls → Option Bool
  | [] => none
  | c :: rest => (PCls.tbl c).orElse (fun _ => inheritedTable rest)

/-- Class creation as SQLModelMetaclass.__new__ resolves the storage
flag (sqlmodel/main.py lines 447-459): the class-config value (own, else
inherited through the merged config) wins over the declaration keyword;
when the resolved value is True, set_config_value writes it into the
class config that cls_is_table later reads. -/
def mkModelCls (ownCfg kw : Option Bool) (bases : List PCls) : PCls :=
  let cfg := ownCfg.orElse (fun _ => inheritedTable bases)
  let eff := cfg.orElse (fun _ => kw)
  .mk (if eff = some true then some true else cfg) bases

/-- The guard of the wiring phase in SQLModelMetaclass.__init__
(sqlmodel/main.py lines 493-494): the class is a table and no direct base
is a table. -/
def wiring_runs (c : PCls) : Bool :=
  cls_is_table c && !(c.bs.any cls_is_table)

/-- Whether any class in a list, or any of its transitive bases, is a
table class. -/
def anyTableAnc : List PCls → Bool
  | [] => false
  | .mk t bs :: rest => (t.getD false) || anyTableAnc bs || anyTableAnc rest

/-- Whether some transitive ancestor of the class is a table class. -/
def hasTableAncestor (c : PCls) : Bool :=
  anyTableAnc c.bs

/-- A value of the class body dictionary at an annotated key: a plain
default value, or a FieldInfo descriptor. -/
inductive DictEntry where
  | plain (v : Dflt)
  | finfo (f : FieldInfo)

/-- class_dict.get(key) on the class body dictionary. -/
def lookupEntry : List (String × DictEntry) → String → Option DictEntry
  | [], _ => none
  | p :: rest, k => if p.1 = k then some p.2 else lookupEntry rest k

/-- The condition of the default-injection branch of set_empty_defaults:
the default of the descriptor is the Undefined sentinel or Ellipsis, and it has
no default factory. -/
def lacksDefault (f : FieldInfo) : Bool :=
  (isUndefD f.default || isEllipsisD f.default) && f.default_factory.isNone

/-- One iteration of set_empty_defaults (sqlmodel/compat.py lines
180-194, pydantic-v2 branch) for one annotated key: an absent key gets the
value None; a FieldInfo whose default is Undefined or Ellipsis and that
has no default factory gets default None, with the previous default
recorded in original_default; everything else is untouched. -/
def injectKey : List (String × DictEntry) → String → List (String × DictEntry)
  | [], k => [(k, .plain .noneV)]
  | (k', e) :: rest, k =>
    if k' = k then
      match e with
      | .plain v => (k', .plain v) :: rest
      | .finfo f =>
        if lacksDefault f then
          (k', .finfo { f with default := Dflt.noneV, original_default := some f.default }) :: rest
        else (k', .finfo f) :: rest
    else (k', e) :: injectKey rest k

/-- set_empty_defaults (sqlmodel/compat.py lines 170-194, pydantic-v2
branch): apply the injection to every annotated key of a storage-backed
class body. -/
def set_empty_defaults (anns : List String) (cd : List (String × DictEntry)) :
    List (String × DictEntry) :=
  anns.foldl injectKey cd

/-- Whether a class-body entry supplies a default for its field: a plain
value always does; a FieldInfo does unless its default is the Undefined
sentinel or Ellipsis with no default factory; an absent entry does not. -/
def entryHasDefault : Option DictEntry → Bool
  | none => false
  | some (.plain _) => true
  | some (.finfo f) => !(lacksDefault f)

/-- Modelled from the spec: the keyword
constructor rejects a zero-argument construction exactly when some field
is still required, i.e. has neither a default nor a default factory
(specification section 6: the validation library "would otherwise require
required fields"). -/
def zero_arg_init_raises (anns : List String) (cd : List (String × DictEntry)) : Bool :=
  anns.any (fun k => !(entryHasDefault (lookupEntry cd k)))

/-- A model class as keyword construction sees it: the storage flag, the
validation fields, the relationship names, and the external validation
per-field coercion the external validation library provides for this class. -/
structure VClass where
  table : Bool
  vfields : List String
  vrels : List String
  validate1 : String → Int → Except String Int

/-- Modelled from the spec: the coerce
entry point (validate_model), which per specification section 6 returns
either coerced values or a structured per-field error list.  Values are
the coercions of the valid supplied fields; the error list carries one
entry per failing supplied field. -/
def validate_model (c : VClass) (data : List (String × Int)) :
    List (String × Int) × List String × List (String × String) :=
  let known := data.filter (fun kv => c.vfields.contains kv.1)
  let vals := known.filterMap (fun kv =>
    match c.validate1 kv.1 kv.2 with
    | .ok v => some (kv.1, v)
    | .error _ => none)
  let errs := known.filterMap (fun kv =>
    match c.validate1 kv.1 kv.2 with
    | .ok _ => none
    | .error e => some (kv.1, e))
  (vals, vals.map (fun p => p.1), errs)

/-- The per-field error list keyword construction of the class observes
for the given data. -/
def failingOf (c : VClass) (data : List (String × Int)) : List (String × String) :=
  (validate_model c data).2.2

/-- The state keyword construction produces when it does not raise:
validated values (set through the dual-write setter), the fields-set
bookkeeping, and the relationship keywords written through the setter. -/
structure InitOut where
  values : List (String × Int)
  fieldsSet : List String
  relWrites : List (String × Int)

/-- SQLModel.__init__, pydantic-v1 branch (sqlmodel/main.py lines
699-715): run the external validator, raise its aggregated error only
when the class is not storage-backed (the comment in the source reads
"Only raise errors if not a SQLModel model"), set validated values and
bookkeeping, and write every non-validated keyword naming a relationship
through the setter. -/
def sqlmodel_init (c : VClass) (data : List (String × Int)) :
    Except (List (String × String)) InitOut :=
  let r := validate_model c data
  if c.table = false ∧ r.2.2 ≠ [] then .error r.2.2
  else
    let vkeys := r.1.map (fun p => p.1)
    let nonPydantic := data.filter (fun kv => !(vkeys.contains kv.1))
    .ok { values := r.1
          fieldsSet := r.2.1
          relWrites := nonPydantic.filter (fun kv => c.vrels.contains kv.1) }

/-- SQLModel.__init__, pydantic-v2 branch (sqlmodel/main.py lines
694-698): the constructor delegates to the keyword constructor of the
external validation library with no table guard on this path, then keeps
already-present mapping-layer keys and writes every keyword outside
model_fields that names a relationship through the setter.  The raise
behaviour of the external keyword constructor is modelled from the
specification (section 6: the coercion entry point yields a typed
instance or a structured per-field error list; the keyword constructor
surfaces the latter as one aggregated raise), so construction fails
exactly when some supplied field fails validation, storage-backed or
not. -/
def sqlmodel_init_v2 (c : VClass) (data : List (String × Int)) :
    Except (List (String × String)) InitOut :=
  let r := validate_model c data
  if r.2.2 ≠ [] then .error r.2.2
  else
    let nonPydantic := data.filter (fun kv => !(c.vfields.contains kv.1))
    .ok { values := r.1
          fieldsSet := r.2.1
          relWrites := nonPydantic.filter (fun kv => c.vrels.contains kv.1) }

/-- The write context of one attribute assignment on an instance: whether
the class is storage-backed, which attributes the mapping layer has
instrumented, and which names are relationships. -/
structure InstCtx where
  table : Bool
  instr : List String
  rels : List String

/-- The observable write steps of one attribute assignment: the
mapping-layer write (set_attribute), the validation-layer write
(BaseModel setattr), and the raw dictionary write used for the reserved
bookkeeping attribute. -/
inductive WEvent where
  | mapW (nm : String)
  | valW (nm : String)
  | rawW (nm : String)
deriving DecidableEq

/-- SQLModel.__setattr__ (sqlmodel/main.py lines 721-732) as the ordered
list of write steps it performs: the reserved name _sa_instance_state goes
straight to the instance dictionary; otherwise the mapping layer is
written first when the class is a table and the name is instrumented, and
the validation layer is written second unless the name is a
relationship. -/
def setattr_events (c : InstCtx) (nm : String) : List WEvent :=
  if nm = ("_sa_instance_state" : String) then [.rawW nm]
  else
    (if c.table && c.instr.contains nm then [.mapW nm] else [])
      ++ (if c.rels.contains nm then [] else [.valW nm])

/-- A model class declaration as the tablename default sees it: the class
name and an explicit __tablename__ when the class sets one. -/
structure ModelDecl where
  nm : String
  tablenameOverride : Option String

/-- str.lower of the host language, as the character-wise lowercase of
the class name. -/
def lowerStr (s : String) : String :=
  String.mk (s.data.map Char.toLower)

/-- The declared-attribute default of SQLModel.__tablename__
(sqlmodel/main.py lines 742-744): an explicit table name wins, else the
class name lowercased. -/
def sqlmodel_tablename (m : ModelDecl) : String :=
  m.tablenameOverride.getD (lowerStr m.nm)

/-- A field declared with an explicit nullable override and an extra
column keyword that also names nullable. -/
def cexNullableField : FieldInfo :=
  { emptyField with
      ann := some (.base .intCls)
      nullable := some true
      sa_column_kwargs := some [("nullable", KwVal.b false)] }

/-- An optional-typed primary-key field with no explicit nullable
override. -/
def pkOptionalField : FieldInfo :=
  { emptyField with
      ann := some (.union [.base .intCls, .base .noneType])
      primary_key := some true }

/-- A table class, a non-table child that explicitly overrides the
storage flag to false in its own config, and a table grandchild. -/
def tblA : PCls := mkModelCls (some true) none []

def tblB : PCls := mkModelCls (some false) none [tblA]

def tblC : PCls := mkModelCls (some true) none [tblB]

/-- A non-storage-backed class whose validator rejects negative values. -/
def vcEx : VClass :=
  { table := false
    vfields := [("a"), ("b")]
    vrels := []
    validate1 := fun _ v => if v < 0 then .error ("neg") else .ok v }

/-- The same class, storage-backed. -/
def vcExT : VClass := { vcEx with table := true }

/-- The invalid keyword data used to exercise construction: both supplied
fields fail validation. -/
def badData : List (String × Int) := [(("a"), -1), (("b"), -2)]

/- Helper lemmas about the association-list primitives and the default
injection, shared by the claim theorems below. -/

theorem isNoneAnn_base_false (b : PyBase) (h : b ≠ PyBase.noneType) :
    isNoneAnn (.base b) = false := by
  cases b <;> simp_all [isNoneAnn]

theorem lookupAssoc_updAssoc_ne {α : Type} (d : List (String × α)) (kv : String × α)
    (k : String) (h : kv.1 ≠ k) : lookupAssoc (updAssoc d kv) k = lookupAssoc d k := by
  induction d with
  | nil => simp [updAssoc, lookupAssoc, h]
  | cons p rest ih =>
    by_cases hp : p.1 = kv.1
    · simp [updAssoc, hp, lookupAssoc, h]
    · simp [updAssoc, hp, lookupAssoc, ih]

theorem lookupAssoc_updAssocs_ne {α : Type} (d new : List (String × α)) (k : String)
    (h : new.all (fun p => p.1 != k) = true) :
    lookupAssoc (updAssocs d new) k = lookupAssoc d k := by
  induction new generalizing d with
  | nil => rfl
  | cons kv rest ih =>
    rw [List.all_cons, Bool.and_eq_true] at h
    have hk : kv.1 ≠ k := by simpa [bne] using h.1
    calc lookupAssoc (updAssocs d (kv :: rest)) k
        = lookupAssoc (updAssocs (updAssoc d kv) rest) k := rfl
      _ = lookupAssoc (updAssoc d kv) k := ih (updAssoc d kv) h.2
      _ = lookupAssoc d k := lookupAssoc_updAssoc_ne d kv k hk

theorem lookupEntry_injectKey (cd : List (String × DictEntry)) (a k : String) :
    lookupEntry (injectKey cd a) k =
      (if a = k then
        match lookupEntry cd k with
        | none => some (.plain .noneV)
        | some (.plain v) => some (.plain v)
        | some (.finfo f) =>
          if lacksDefault f then
            some (.finfo { f with default := Dflt.noneV, original_default := some f.default })
          else some (.finfo f)
      else lookupEntry cd k) := by
  induction cd with
  | nil => by_cases hak : a = k <;> simp [injectKey, lookupEntry, hak]
  | cons p rest ih =>
    obtain ⟨k', e⟩ := p
    by_cases hk' : k' = a
    · by_cases hak : a = k
      · have hkk : k' = k := hk'.trans hak
        cases e with
        | plain v => simp [injectKey, lookupEntry, hk', hak, hkk]
        | finfo f =>
          by_cases hc : lacksDefault f = true
          · simp [injectKey, lookupEntry, hk', hak, hkk, hc]
          · have hc' : lacksDefault f = false := by simpa using hc
            simp [injectKey, lookupEntry, hk', hak, hkk, hc']
      · have hkk : ¬(k' = k) := fun hh => hak (hk' ▸ hh)
        cases e with
        | plain v => simp [injectKey, lookupEntry, hk', hak, hkk]
        | finfo f =>
          by_cases hc : lacksDefault f = true
          · simp [injectKey, lookupEntry, hk', hak, hkk, hc]
          · have hc' : lacksDefault f = false := by simpa using hc
            simp [injectKey, lookupEntry, hk', hak, hkk, hc']
    · by_cases hkk : k' = k
      · have hak : ¬(a = k) := fun hh => hk' (hkk.trans hh.symm)
        have hka : ¬(k = a) := fun hh => hak hh.symm
        simp [injectKey, lookupEntry, hk', hkk, hak, hka]
      · simp [injectKey, lookupEntry, hk', hkk, ih]

theorem inject_establish (cd : List (String × DictEntry)) (k : String) :
    entryHasDefault (lookupEntry (injectKey cd k) k) = true := by
  rw [lookupEntry_injectKey, if_pos rfl]
  cases hl : lookupEntry cd k with
  | none => simp [entryHasDefault]
  | some e =>
    cases e with
    | plain v => simp [entryHasDefault]
    | finfo f =>
      by_cases hc : lacksDefault f = true
      · dsimp only
        rw [if_pos hc]
        simp [entryHasDefault, lacksDefault, isUndefD, isEllipsisD]
      · have hc' : lacksDefault f = false := by simpa using hc
        simp [hc', entryHasDefault]

theorem inject_other (cd : List (String × DictEntry)) (a k : String) (h : a ≠ k) :
    lookupEntry (injectKey cd a) k = lookupEntry cd k := by
  rw [lookupEntry_injectKey, if_neg h]

theorem inject_preserve (cd : List (String × DictEntry)) (a k : String) (e : DictEntry)
    (h : lookupEntry cd k = some e) (hd : entryHasDefault (some e) = true) :
    lookupEntry (injectKey cd a) k = some e := by
  rw [lookupEntry_injectKey]
  by_cases hak : a = k
  · rw [if_pos hak, h]
    cases e with
    | plain v => rfl
    | finfo f =>
      have hc : lacksDefault f = false := by simpa [entryHasDefault] using hd
      simp [hc]
  · rw [if_neg hak]
    exact h

theorem transformed_has_default (f : FieldInfo) :
    entryHasDefault (some (.finfo { f with default := Dflt.noneV, original_default := some f.default })) = true := by
  simp [entryHasDefault, lacksDefault, isUndefD, isEllipsisD]

theorem inject_establish_exact (cd : List (String × DictEntry)) (k : String) (f : FieldInfo)
    (hcd : lookupEntry cd k = some (.finfo f)) (hl : lacksDefault f = true) :
    lookupEntry (injectKey cd k) k
      = some (.finfo { f with default := Dflt.noneV, original_default := some f.default }) := by
  rw [lookupEntry_injectKey, if_pos rfl, hcd]
  dsimp only
  rw [if_pos hl]

theorem fold_preserve (l : List String) (cd : List (String × DictEntry)) (k : String)
    (e : DictEntry) (h : lookupEntry cd k = some e) (hd : entryHasDefault (some e) = true) :
    lookupEntry (List.foldl injectKey cd l) k = some e := by
  induction l generalizing cd with
  | nil => exact h
  | cons a rest ih => exact ih (injectKey cd a) (inject_preserve cd a k e h hd)

theorem fold_good (l : List String) (cd : List (String × DictEntry)) (k : String)
    (h : entryHasDefault (lookupEntry cd k) = true) :
    entryHasDefault (lookupEntry (List.foldl injectKey cd l) k) = true := by
  cases hl : lookupEntry cd k with
  | none => rw [hl] at h; simp [entryHasDefault] at h
  | some e =>
    rw [hl] at h
    rw [fold_preserve l cd k e hl h]
    exact h

theorem fold_establish (anns : List String) (cd : List (String × DictEntry)) (k : String)
    (hk : k ∈ anns) :
    entryHasDefault (lookupEntry (set_empty_defaults anns cd) k) = true := by
  induction anns generalizing cd with
  | nil => exact absurd hk (List.not_mem_nil k)
  | cons a rest ih =>
    rcases List.mem_cons.mp hk with hka | hkr
    · subst hka
      exact fold_good rest (injectKey cd k) k (inject_establish cd k)
    · exact ih (injectKey cd a) hkr

/-- C6: for a storage-backed class every regular field lacking an explicit
default receives the injected None placeholder (so no field stays
required and zero-argument construction cannot raise), and the injection
records the original Undefined or Ellipsis default in the
original_default sentinel, keeping no-real-default distinguishable from a
declared None-like default. -/
theorem C6_sentinel_default_injection :
    (∀ (anns : List String) (cd : List (String × DictEntry)) (k : String), k ∈ anns →
        entryHasDefault (lookupEntry (set_empty_defaults anns cd) k) = true)
  ∧ (∀ (anns : List String) (cd : List (String × DictEntry)),
        zero_arg_init_raises anns (set_empty_defaults anns cd) = false)
  ∧ (∀ (anns : List String) (cd : List (String × DictEntry)) (k : String) (f : FieldInfo),
        k ∈ anns →
        lookupEntry cd k = some (.finfo f) →
        (isUndefD f.default || isEllipsisD f.default) = true →
        f.default_factory = none →
        lookupEntry (set_empty_defaults anns cd) k
          = some (.finfo { f with default := Dflt.noneV, original_default := some f.default })) := by
  refine ⟨fun anns cd k hk => fold_establish anns cd k hk, ?_, ?_⟩
  · intro anns cd
    unfold zero_arg_init_raises
    rw [List.any_eq_false]
    intro k hk
    simp [fold_establish anns cd k hk]
  · intro anns cd k f hk hcd hu hf
    have hl : lacksDefault f = true := by
      unfold lacksDefault
      rw [hu, hf]
      rfl
    induction anns generalizing cd with
    | nil => exact absurd hk (List.not_mem_nil k)
    | cons a rest ih =>
      by_cases hka : a = k
      · subst hka
        exact fold_preserve rest (injectKey cd a) a _
          (inject_establish_exact cd a f hcd hl) (transformed_has_default f)
      · have hkr : k ∈ rest := by
          rcases List.mem_cons.mp hk with h1 | h2
          · exact absurd h1.symm hka
          · exact h2
        have hcd' : lookupEntry (injectKey cd a) k = some (.finfo f) := by
          rw [inject_other cd a k hka]
          exact hcd
        exact ih (injectKey cd a) hkr hcd'

/-- C6 witness: a class body with one descriptor field lacking a default
and one absent annotated key; after injection zero-argument construction
cannot raise and the descriptor carries the sentinel. -/
theorem C6_sentinel_default_injection_witness :
    zero_arg_init_raises [("id"), ("nm")]
        (set_empty_defaults [("id"), ("nm")] [(("id"), DictEntry.finfo emptyField)]) = false
  ∧ lookupEntry (set_empty_defaults [("id"), ("nm")] [(("id"), DictEntry.finfo emptyField)]) ("id")
      = some (.finfo { emptyField with default := Dflt.noneV, original_default := some Dflt.undef }) :=
  ⟨C6_sentinel_default_injection.2.1 [("id"), ("nm")] [(("id"), DictEntry.finfo emptyField)],
   C6_sentinel_default_injection.2.2 [("id"), ("nm")] [(("id"), DictEntry.finfo emptyField)]
     ("id") emptyField (by simp) rfl rfl rfl⟩

/-- C10: a model class that does not explicitly set a table name gets the
class name lowercased as its storage table name. -/
theorem C10_default_tablename (m : ModelDecl) (h : m.tablenameOverride = none) :
    sqlmodel_tablename m = lowerStr m.nm := by
  unfold sqlmodel_tablename
  rw [h]
  rfl

/-- C10 witness: a class named Hero without an explicit table name maps
to table hero. -/
theorem C10_default_tablename_witness :
    sqlmodel_tablename ⟨("Hero"), none⟩ = ("hero") := by
  have h := C10_default_tablename ⟨("Hero"), none⟩ rfl
  exact h.trans (by decide)

/-- C7: on a storage-backed instance, a relationship attribute write never
reaches the validation layer; the reserved mapping-layer bookkeeping name
_sa_instance_state bypasses both the mapping-layer and the
validation-layer write; and every other instrumented attribute is written
through the mapping layer first, then the validation layer. -/
theorem C7_dual_write_order (c : InstCtx) (nm : String) :
    (c.rels.contains nm = true → WEvent.valW nm ∉ setattr_events c nm)
  ∧ (setattr_events c ("_sa_instance_state")
      = [WEvent.rawW ("_sa_instance_state")]
      ∧ WEvent.mapW ("_sa_instance_state") ∉ setattr_events c ("_sa_instance_state")
      ∧ WEvent.valW ("_sa_instance_state") ∉ setattr_events c ("_sa_instance_state"))
  ∧ (c.rels.contains nm = false → nm ≠ ("_sa_instance_state") → c.table = true →
      c.instr.contains nm = true →
      setattr_events c nm = [WEvent.mapW nm, WEvent.valW nm]) := by
  refine ⟨?_, ⟨?_, ?_, ?_⟩, ?_⟩
  · intro h
    unfold setattr_events
    by_cases hs : nm = ("_sa_instance_state" : String)
    · simp [hs]
    · rw [if_neg hs, h]
      simp
  · unfold setattr_events
    simp
  · unfold setattr_events
    simp
  · unfold setattr_events
    simp
  · intro h1 h2 h3 h4
    unfold setattr_events
    rw [if_neg h2, h3, h4, h1]
    simp

/-- C7 witness: on a table instance with instrumented field x and
relationship r, writing x performs the mapping-layer write then the
validation-layer write, and writing r never reaches the validation
layer. -/
theorem C7_dual_write_order_witness :
    setattr_events ⟨true, [("x"), ("r")], [("r")]⟩ ("x")
      = [WEvent.mapW ("x"), WEvent.valW ("x")]
  ∧ WEvent.valW ("r") ∉ setattr_events ⟨true, [("x"), ("r")], [("r")]⟩ ("r") :=
  ⟨(C7_dual_write_order ⟨true, [("x"), ("r")], [("r")]⟩ ("x")).2.2 (by decide) (by decide) rfl (by decide),
   (C7_dual_write_order ⟨true, [("x"), ("r")], [("r")]⟩ ("r")).1 (by decide)⟩

/-- C4: the Field builder rejects a manual sa_column combined with any
shorthand mapping hint (primary_key, nullable, foreign_key, unique,
index, sa_type, sa_column_args, sa_column_kwargs), and accepts a manual
sa_column supplied alone: with a manual column present, construction
fails exactly when some hint is supplied. -/
theorem C4_manual_column_exclusive (a : FieldArgs) (c : Nat) (h : a.sa_column = some c) :
    ((field_build a).isOk = false ↔
      (a.primary_key.isSome || a.nullable.isSome || a.foreign_key.isSome || a.unique.isSome ||
       a.index.isSome || a.sa_type.isSome || a.sa_column_args.isSome ||
       a.sa_column_kwargs.isSome) = true) := by
  obtain ⟨d, df, pk, nb, fk, uq, ix, st, sc, sca, sck⟩ := a
  simp only at h
  subst h
  cases pk <;> cases nb <;> cases fk <;> cases uq <;> cases ix <;> cases st <;> cases sca <;>
    cases sck <;> simp [field_build, Except.isOk, Except.toBool]

/-- C4 witness: a manual column alone builds a descriptor; a manual
column with the nullable hint fails. -/
theorem C4_manual_column_exclusive_witness :
    (field_build { sa_column := some 7 }).isOk = true
  ∧ (field_build { sa_column := some 7, nullable := some true }).isOk = false := by
  constructor
  · have h := C4_manual_column_exclusive { sa_column := some 7 } 7 rfl
    simp only [Option.isSome_none, Bool.or_self] at h
    rcases hv : (field_build { sa_column := some 7 }).isOk with _ | _
    · exact absurd (h.mp hv) (by decide)
    · rfl
  · have h := C4_manual_column_exclusive { sa_column := some 7, nullable := some true } 7 rfl
    exact h.mpr (by decide)

/-- C9: deriving a storage column is a deterministic function of the
field descriptor: two descriptors agreeing on every attribute the
derivation reads produce the same column result (same storage type,
nullability and constraints). -/
theorem C9_derivation_deterministic (f g : FieldInfo)
    (h1 : f.ann = g.ann) (h2 : f.default = g.default)
    (h3 : f.default_factory = g.default_factory) (h4 : f.meta = g.meta)
    (h5 : f.primary_key = g.primary_key) (h6 : f.nullable = g.nullable)
    (h7 : f.foreign_key = g.foreign_key) (h8 : f.unique = g.unique)
    (h9 : f.index = g.index) (h10 : f.sa_type = g.sa_type)
    (h11 : f.sa_column = g.sa_column) (h12 : f.sa_column_args = g.sa_column_args)
    (h13 : f.sa_column_kwargs = g.sa_column_kwargs)
    (h14 : f.original_default = g.original_default) :
    get_column_from_field f = get_column_from_field g := by
  have he : f = g := by
    cases f
    cases g
    simp_all
  rw [he]

/-- C9 witness: the derivation applied twice to the descriptor of an
optional primary-key field gives the same column. -/
theorem C9_derivation_deterministic_witness :
    get_column_from_field pkOptionalField = get_column_from_field pkOptionalField :=
  C9_derivation_deterministic pkOptionalField pkOptionalField rfl rfl rfl rfl rfl rfl rfl
    rfl rfl rfl rfl rfl rfl rfl

/-- C3: for a field without an explicit storage type, the storage type is
the annotation with Optional unwrapped (either argument order; a union of
two non-None classes is rejected) dispatched by class identity in the
fixed source priority: enumeration (before string, also when the
enumeration subclasses string), string with truthy max-length applied,
float, bool, int, datetime, date, timedelta, time, bytes, Decimal with
precision and scale from max_digits and decimal_places, the network
address and filesystem path classes as unsized strings, UUID; any other
class is rejected with an error naming it. -/
theorem C3_storage_type_dispatch :
    (∀ f : FieldInfo, f.sa_type = none →
        get_sqlalchemy_type f = get_sqlalchemy_type_core f.ann (getFieldMetadata f))
  ∧ (∀ (b : PyBase) (md : MetaRec),
        get_sqlalchemy_type_core (some (.union [.base b, .base .noneType])) md
          = get_sqlalchemy_type_core (some (.base b)) md)
  ∧ (∀ (b : PyBase) (md : MetaRec),
        get_sqlalchemy_type_core (some (.union [.base .noneType, .base b])) md
          = get_sqlalchemy_type_core (some (.base b)) md)
  ∧ (∀ (b1 b2 : PyBase) (md : MetaRec), b1 ≠ .noneType → b2 ≠ .noneType →
        get_sqlalchemy_type_core (some (.union [.base b1, .base b2])) md
          = .error .nonOptionalUnion)
  ∧ (∀ (s : Bool) (md : MetaRec),
        get_sqlalchemy_type_core (some (.base (.enumCls s))) md = .ok (.saEnum (.enumCls s)))
  ∧ (∀ md : MetaRec,
        get_sqlalchemy_type_core (some (.base .strCls)) md
          = .ok (.autoString (truthyLen md.max_length)))
  ∧ (∀ md : MetaRec, get_sqlalchemy_type_core (some (.base .floatCls)) md = .ok .floatT)
  ∧ (∀ md : MetaRec, get_sqlalchemy_type_core (some (.base .boolCls)) md = .ok .booleanT)
  ∧ (∀ md : MetaRec, get_sqlalchemy_type_core (some (.base .intCls)) md = .ok .integerT)
  ∧ (∀ md : MetaRec, get_sqlalchemy_type_core (some (.base .datetimeCls)) md = .ok .dateTimeT)
  ∧ (∀ md : MetaRec, get_sqlalchemy_type_core (some (.base .dateCls)) md = .ok .dateT)
  ∧ (∀ md : MetaRec, get_sqlalchemy_type_core (some (.base .timedeltaCls)) md = .ok .intervalT)
  ∧ (∀ md : MetaRec, get_sqlalchemy_type_core (some (.base .timeCls)) md = .ok .timeT)
  ∧ (∀ md : MetaRec, get_sqlalchemy_type_core (some (.base .bytesCls)) md = .ok .largeBinary)
  ∧ (∀ md : MetaRec,
        get_sqlalchemy_type_core (some (.base .decimalCls)) md
          = .ok (.numeric md.max_digits md.decimal_places))
  ∧ (∀ md : MetaRec, get_sqlalchemy_type_core (some (.base .ip4aCls)) md = .ok (.autoString none))
  ∧ (∀ md : MetaRec, get_sqlalchemy_type_core (some (.base .ip4nCls)) md = .ok (.autoString none))
  ∧ (∀ md : MetaRec, get_sqlalchemy_type_core (some (.base .ip6aCls)) md = .ok (.autoString none))
  ∧ (∀ md : MetaRec, get_sqlalchemy_type_core (some (.base .ip6nCls)) md = .ok (.autoString none))
  ∧ (∀ md : MetaRec, get_sqlalchemy_type_core (some (.base .pathCls)) md = .ok (.autoString none))
  ∧ (∀ md : MetaRec, get_sqlalchemy_type_core (some (.base .uuidCls)) md = .ok .guid)
  ∧ (∀ (s : String) (md : MetaRec),
        get_sqlalchemy_type_core (some (.base (.custom s))) md = .error (.unmappable s)) := by
  refine ⟨?_, ?_, ?_, ?_, ?_, ?_, ?_, ?_, ?_, ?_, ?_, ?_, ?_, ?_, ?_, ?_, ?_, ?_, ?_, ?_, ?_, ?_⟩
  · intro f h
    unfold get_sqlalchemy_type
    rw [h]
  · intro b md
    cases b <;> rfl
  · intro b md
    cases b <;> rfl
  · intro b1 b2 md h1 h2
    have e1 := isNoneAnn_base_false b1 h1
    have e2 := isNoneAnn_base_false b2 h2
    unfold get_sqlalchemy_type_core get_type_from_field_core
    simp [e1, e2, Except.bind]
  all_goals (intros; rfl)

/-- C3 witness: a non-optional union of two concrete classes is rejected;
a Decimal field with max_digits 5 and decimal_places 2 derives precision
5 and scale 2; and the explicit-sa_type guard applies to a concrete
descriptor. -/
theorem C3_storage_type_dispatch_witness :
    get_sqlalchemy_type_core
        (some (.union [.base (.custom ("A")), .base .intCls]))
        { max_length := none, max_digits := none, decimal_places := none }
      = .error .nonOptionalUnion
  ∧ get_sqlalchemy_type_core (some (.base .decimalCls))
        { max_length := none, max_digits := some 5, decimal_places := some 2 }
      = .ok (.numeric (some 5) (some 2))
  ∧ get_sqlalchemy_type pkOptionalField
      = get_sqlalchemy_type_core pkOptionalField.ann (getFieldMetadata pkOptionalField) :=
  ⟨C3_storage_type_dispatch.2.2.2.1 (.custom ("A")) .intCls
      { max_length := none, max_digits := none, decimal_places := none }
      (by decide) (by decide),
   C3_storage_type_dispatch.2.2.2.2.2.2.2.2.2.2.2.2.2.2.1
      { max_length := none, max_digits := some 5, decimal_places := some 2 },
   C3_storage_type_dispatch.1 pkOptionalField rfl⟩

/-- C1 (amended): when the extra column kwargs do not themselves name
nullable, the nullable entry of the derived column is exactly the explicit
nullable override when present, else not-primary-key and noneable; a
primary-key field without an override derives nullable false regardless
of the optionality of its type; an explicit override always determines
the pre-merge value; and without an override, a non-primary-key field is
nullable iff its type is optional or it carries a default while its
annotation admits only None.  (The unamended claim fails because
sa_column_kwargs merge last and override even the explicit nullable
override, see the counterexample.) -/
theorem C1_nullability :
    (∀ f : FieldInfo,
        (f.sa_column_kwargs.getD []).all (fun p => p.1 != ("nullable" : String)) = true →
        f.sa_column = none →
        (get_sqlalchemy_type f).isOk = true →
        colNullableOf f = some (KwVal.b (nullableDerived f)))
  ∧ (∀ f : FieldInfo, f.primary_key = some true → f.nullable = none →
        nullableDerived f = false)
  ∧ (∀ (f : FieldInfo) (b : Bool), f.nullable = some b → nullableDerived f = b)
  ∧ (∀ f : FieldInfo, f.nullable = none → f.primary_key.getD false = false →
        (nullableDerived f = true ↔
          (isOptionalUnionAnn f.ann = true ∨
            (isUndefD f.default = false ∧ noneishAnn f.ann = true)))) := by
  refine ⟨?_, ?_, ?_, ?_⟩
  · intro f hall hsc hok
    unfold colNullableOf get_column_from_field
    rw [hsc]
    cases hst : get_sqlalchemy_type f with
    | error e =>
      rw [hst] at hok
      simp [Except.isOk, Except.toBool] at hok
    | ok ty =>
      dsimp only
      unfold colNullable
      rw [lookupAssoc_updAssocs_ne _ _ _ hall]
      cases hdf : f.default_factory with
      | some n => rfl
      | none => cases hd : f.default <;> rfl
  · intro f h1 h2
    unfold nullableDerived
    rw [h1, h2]
    simp
  · intro f b h
    unfold nullableDerived
    rw [h]
    rfl
  · intro f h1 h2
    unfold nullableDerived _is_field_noneable
    rw [h1, h2]
    simp only [Option.getD_none, Bool.not_false, Bool.true_and]
    by_cases ho : isOptionalUnionAnn f.ann = true
    · simp [ho]
    · have ho' : isOptionalUnionAnn f.ann = false := by simpa using ho
      by_cases hu : isUndefD f.default = true
      · cases hdf : f.default_factory with
        | none => simp [ho', hu, hdf, isRequiredF]
        | some n => simp [ho', hu, hdf, isRequiredF]
      · have hu' : isUndefD f.default = false := by simpa using hu
        simp [ho', hu', isRequiredF]

/-- C1 counterexample: a field with the explicit override nullable true
and the extra column kwarg nullable false derives a column whose
nullable entry is false, so the explicit override does not determine the
result, against the claim. -/
theorem C1_counterexample :
    cexNullableField.nullable = some true
  ∧ colNullableOf cexNullableField = some (KwVal.b false) :=
  ⟨rfl, rfl⟩

/-- C1 witness: an optional-typed primary-key field without an override
derives nullable false. -/
theorem C1_nullability_witness :
    colNullableOf pkOptionalField = some (KwVal.b false)
  ∧ nullableDerived pkOptionalField = false := by
  have h := C1_nullability
  have h2 : nullableDerived pkOptionalField = false := h.2.1 pkOptionalField rfl rfl
  constructor
  · have h1 := h.1 pkOptionalField rfl rfl rfl
    rw [h2] at h1
    exact h1
  · exact h2

/-- C2 (amended): both variants of get_relationship_to resolve the target
of Target, Optional[Target] and List[Target] to Target, also for a
forward-referenced name; the _compat variant rejects every union of more
than two arguments and every two-argument union where neither argument is
NoneType; but the compat variant — the one sqlmodel/main.py imports —
returns the first member of a non-optional union instead of raising (see
the counterexample). -/
theorem C2_relationship_target_resolution :
    (∀ b : PyBase, get_relationship_to_compat (.base b) = .ann (.base b))
  ∧ (∀ s : String, get_relationship_to_compat (.fref s) = .name s)
  ∧ (∀ b : PyBase, get_relationship_to_compat (.union [.base b, .base .noneType]) = .ann (.base b))
  ∧ (∀ s : String, get_relationship_to_compat (.union [.fref s, .base .noneType]) = .name s)
  ∧ (∀ b : PyBase, get_relationship_to_compat (.listOf (.base b)) = .ann (.base b))
  ∧ (∀ s : String, get_relationship_to_compat (.listOf (.fref s)) = .name s)
  ∧ (∀ b : PyBase, get_relationship_to_us (.base b) = .ok (.ann (.base b)))
  ∧ (∀ s : String, get_relationship_to_us (.fref s) = .ok (.name s))
  ∧ (∀ b : PyBase, b ≠ .noneType →
        get_relationship_to_us (.union [.base b, .base .noneType]) = .ok (.ann (.base b)))
  ∧ (∀ s : String, get_relationship_to_us (.union [.fref s, .base .noneType]) = .ok (.name s))
  ∧ (∀ b : PyBase, get_relationship_to_us (.listOf (.base b)) = .ok (.ann (.base b)))
  ∧ (∀ s : String, get_relationship_to_us (.listOf (.fref s)) = .ok (.name s))
  ∧ (∀ a1 a2 : Ann, isNoneAnn a1 = false → isNoneAnn a2 = false →
        get_relationship_to_us (.union [a1, a2]) = .error .unionOfNones)
  ∧ (∀ (a1 a2 a3 : Ann) (rest : List Ann),
        get_relationship_to_us (.union (a1 :: a2 :: a3 :: rest)) = .error .nonOptionalUnion)
  ∧ (∀ (b : PyBase) (rest : List Ann),
        get_relationship_to_compat (.union (.base b :: rest)) = .ann (.base b)) := by
  refine ⟨fun b => rfl, fun s => rfl, fun b => rfl, fun s => rfl, fun b => rfl, fun s => rfl,
    fun b => rfl, fun s => rfl, ?_, fun s => rfl, fun b => rfl, fun s => rfl, ?_, ?_, fun b rest => rfl⟩
  · intro b h
    cases b <;> first | exact absurd rfl h | rfl
  · intro a1 a2 h1 h2
    unfold get_relationship_to_us
    simp [h1, h2]
  · intro a1 a2 a3 rest
    unfold get_relationship_to_us
    rw [if_pos]
    simp only [List.length_cons]
    omega

/-- C2 counterexample: on the non-optional union of the two concrete
classes A and B, the resolver sqlmodel/main.py imports returns the first
member A instead of raising. -/
theorem C2_counterexample :
    get_relationship_to_compat (.union [.base (.custom ("A")), .base (.custom ("B"))])
      = .ann (.base (.custom ("A"))) := rfl

/-- C2 witness: Optional of a concrete class resolves to that class in
the _compat variant. -/
theorem C2_relationship_target_resolution_witness :
    get_relationship_to_us (.union [.base (.custom ("Team")), .base .noneType])
      = .ok (.ann (.base (.custom ("Team"))))
  ∧ get_relationship_to_us (.union [.base (.custom ("L")), .base (.custom ("R"))])
      = .error .unionOfNones :=
  ⟨(C2_relationship_target_resolution.2.2.2.2.2.2.2.2.1 (.custom ("Team")) (by decide)),
   (C2_relationship_target_resolution.2.2.2.2.2.2.2.2.2.2.2.2.1
      (.base (.custom ("L"))) (.base (.custom ("R"))) rfl rfl)⟩

/-- C8 (amended): relationship wiring runs for a class iff the class is
storage-backed and none of its direct base classes is storage-backed; in
particular a class with a storage-backed direct base never rewires, and
since the storage flag is inherited through the merged config, a table
ancestor blocks wiring unless an intermediate class explicitly overrides
the flag to false (the counterexample shows the transitive-ancestor form
of the claim fails in exactly that case); when wiring runs, a
relationship carrying an explicit override object is bound directly,
skipping target inference, whatever the annotation. -/
theorem C8_wiring_guard :
    (∀ (own kw : Option Bool) (bases : List PCls),
        wiring_runs (mkModelCls own kw bases)
          = (cls_is_table (mkModelCls own kw bases) && !(bases.any cls_is_table)))
  ∧ (∀ (own kw : Option Bool) (bases : List PCls), bases.any cls_is_table = true →
        wiring_runs (mkModelCls own kw bases) = false)
  ∧ (∀ (kw : Option Bool) (b : PCls) (rest : List PCls), cls_is_table b = true →
        cls_is_table (mkModelCls none kw (b :: rest)) = true
          ∧ wiring_runs (mkModelCls none kw (b :: rest)) = false)
  ∧ (∀ (ri : RelInfo) (r : Nat) (a : Ann), ri.sa_relationship = some r →
        wire_relationship ri a = .ok (.direct r)) := by
  refine ⟨fun own kw bases => rfl, ?_, ?_, ?_⟩
  · intro own kw bases h
    unfold wiring_runs
    have hb : (mkModelCls own kw bases).bs = bases := rfl
    rw [hb, h]
    simp
  · intro kw b rest hb
    have hst : b.tbl = some true := by
      unfold cls_is_table at hb
      cases hbt : b.tbl with
      | none => rw [hbt] at hb; simp [Option.getD] at hb
      | some v => rw [hbt] at hb; simp [Option.getD] at hb; rw [hb]
    constructor
    · unfold mkModelCls cls_is_table inheritedTable
      rw [hst]
      rfl
    · unfold wiring_runs
      have hbs : (mkModelCls none kw (b :: rest)).bs = b :: rest := rfl
      rw [hbs]
      simp [List.any_cons, hb]
  · intro ri r a h
    unfold wire_relationship
    rw [h]

/-- C8 counterexample: a table class A, a child B that explicitly
overrides the storage flag to false in its own config, and a
storage-backed grandchild C: wiring runs for C although its transitive
ancestor A is a table class. -/
theorem C8_counterexample :
    wiring_runs tblC = true ∧ hasTableAncestor tblC = true := by
  constructor
  · rfl
  · simp [hasTableAncestor, tblC, tblB, tblA, anyTableAnc, mkModelCls, inheritedTable,
      cls_is_table, PCls.bs, PCls.tbl, Option.orElse]

/-- C8 witness: a class derived from the table class A without its own
storage flag is itself storage-backed through config inheritance and is
not rewired. -/
theorem C8_wiring_guard_witness :
    (cls_is_table (mkModelCls none none [tblA]) = true
      ∧ wiring_runs (mkModelCls none none [tblA]) = false)
  ∧ wire_relationship
      { back_populates := none, link_model := none, sa_relationship := some 5,
        sa_relationship_args := none, sa_relationship_kwargs := none }
      (.base (.custom ("X")))
      = .ok (.direct 5) :=
  ⟨C8_wiring_guard.2.2.1 none tblA [] rfl,
   C8_wiring_guard.2.2.2
     { back_populates := none, link_model := none, sa_relationship := some 5,
       sa_relationship_args := none, sa_relationship_kwargs := none }
     5 (.base (.custom ("X"))) rfl⟩

/-- C5 (amended): keyword construction with invalid input raises the
single aggregated error list, which contains an entry for every failing
supplied field (never only the first one); whether a storage-backed
class raises depends on the version branch of SQLModel.__init__: the
pydantic-v1 branch raises only for non-storage-backed classes, while the
pydantic-v2 branch delegates to the unconditionally validating external
keyword constructor and raises for every class, storage-backed included
(see the counterexample).  Valid input raises in neither branch. -/
theorem C5_validation_error_policy :
    (∀ (c : VClass) (data : List (String × Int)), c.table = false →
        failingOf c data ≠ [] → sqlmodel_init c data = .error (failingOf c data))
  ∧ (∀ (c : VClass) (data : List (String × Int)) (k : String) (v : Int) (e : String),
        (k, v) ∈ data → c.vfields.contains k = true → c.validate1 k v = .error e →
        (k, e) ∈ failingOf c data)
  ∧ (∀ (c : VClass) (data : List (String × Int)), c.table = true →
        ∃ out, sqlmodel_init c data = .ok out)
  ∧ (∀ (c : VClass) (data : List (String × Int)), failingOf c data ≠ [] →
        sqlmodel_init_v2 c data = .error (failingOf c data))
  ∧ (∀ (c : VClass) (data : List (String × Int)), failingOf c data = [] →
        ∃ out, sqlmodel_init_v2 c data = .ok out) := by
  refine ⟨?_, ?_, ?_, ?_, ?_⟩
  · intro c data h1 h2
    unfold sqlmodel_init
    rw [if_pos]
    · rfl
    · exact ⟨h1, h2⟩
  · intro c data k v e hmem hfield hval
    unfold failingOf validate_model
    dsimp only
    refine List.mem_filterMap.mpr ⟨(k, v), ?_, ?_⟩
    · exact List.mem_filter.mpr ⟨hmem, hfield⟩
    · rw [hval]
  · intro c data h
    unfold sqlmodel_init
    rw [if_neg]
    · exact ⟨_, rfl⟩
    · intro hc
      rw [h] at hc
      exact Bool.noConfusion hc.1
  · intro c data h
    unfold sqlmodel_init_v2
    rw [if_pos]
    · rfl
    · exact h
  · intro c data h
    unfold sqlmodel_init_v2
    rw [if_neg]
    · exact ⟨_, rfl⟩
    · intro hc
      exact hc h

/-- C5 counterexample: under the pydantic-v2 branch of SQLModel.__init__
a storage-backed class does raise the aggregated validation error on
invalid keyword input, refuting the claim that storage-backed
construction does not raise a validation error at all. -/
theorem C5_counterexample :
    vcExT.table = true
  ∧ failingOf vcExT badData ≠ []
  ∧ sqlmodel_init_v2 vcExT badData = .error (failingOf vcExT badData) := by
  refine ⟨rfl, by decide, ?_⟩
  rfl

/-- C5 witness: on a non-storage-backed class whose validator rejects
negative values, construction with two failing fields raises the
aggregated list carrying both fields in both branches; the
storage-backed twin does not raise on the same data in the pydantic-v1
branch, and neither class raises on valid input in the pydantic-v2
branch. -/
theorem C5_validation_error_policy_witness :
    sqlmodel_init vcEx badData = .error (failingOf vcEx badData)
  ∧ (("a"), ("neg")) ∈ failingOf vcEx badData
  ∧ (("b"), ("neg")) ∈ failingOf vcEx badData
  ∧ (∃ out, sqlmodel_init vcExT badData = .ok out)
  ∧ sqlmodel_init_v2 vcEx badData = .error (failingOf vcEx badData)
  ∧ ∃ out, sqlmodel_init_v2 vcExT [(("a"), 3)] = .ok out :=
  ⟨C5_validation_error_policy.1 vcEx badData rfl (by decide),
   C5_validation_error_policy.2.1 vcEx badData ("a") (-1) ("neg") (by decide) rfl (by simp [vcEx]),
   C5_validation_error_policy.2.1 vcEx badData ("b") (-2) ("neg") (by decide) rfl (by simp [vcEx]),
   C5_validation_error_policy.2.2.1 vcExT badData rfl,
   C5_validation_error_policy.2.2.2.1 vcEx badData (by decide),
   C5_validation_error_policy.2.2.2.2 vcExT [(("a"), 3)] (by decide)⟩

end SqlModel
